import Mathlib

/-!
Shallow embedding of the result-cache subsystem of the Stock-Data-Visualization
repository (`src/src/cache/cache_manager.py`): key derivation (`get_cache_key`,
which MD5-hashes an underscore-joined rendering of the call), the two-tier
cached-call wrapper produced by `cache_result` (in-memory dict + one pickle
file per key), and the maintenance operations `clear_cache` and
`clear_expired_cache`.  Python values that only ever appear via their `str`
rendering are embedded as the rendered strings; wall-clock instants are
embedded as rationals; the MD5 digest is implemented bit-faithfully over the
UTF-8 bytes of the key string.
-/

set_option maxRecDepth 4096

namespace StockCache

/-! ### MD5 (RFC 1321), operating on a byte list, digest rendered as lowercase hex -/

/-- Truncate to an unsigned 32-bit value. -/
def u32 (n : Nat) : Nat := n % 4294967296

/-- Rotate a 32-bit value left by `s` bits (`0 < s < 32`). -/
def rotl (x s : Nat) : Nat := (x * 2 ^ s) % 4294967296 + x / 2 ^ (32 - s)

/-- The 64 MD5 sine-derived constants `K[i] = floor(2^32 * |sin(i+1)|)`. -/
def md5K : List Nat :=
  [0xd76aa478, 0xe8c7b756, 0x242070db, 0xc1bdceee,
   0xf57c0faf, 0x4787c62a, 0xa8304613, 0xfd469501,
   0x698098d8, 0x8b44f7af, 0xffff5bb1, 0x895cd7be,
   0x6b901122, 0xfd987193, 0xa679438e, 0x49b40821,
   0xf61e2562, 0xc040b340, 0x265e5a51, 0xe9b6c7aa,
   0xd62f105d, 0x02441453, 0xd8a1e681, 0xe7d3fbc8,
   0x21e1cde6, 0xc33707d6, 0xf4d50d87, 0x455a14ed,
   0xa9e3e905, 0xfcefa3f8, 0x676f02d9, 0x8d2a4c8a,
   0xfffa3942, 0x8771f681, 0x6d9d6122, 0xfde5380c,
   0xa4beea44, 0x4bdecfa9, 0xf6bb4b60, 0xbebfbc70,
   0x289b7ec6, 0xeaa127fa, 0xd4ef3085, 0x04881d05,
   0xd9d4d039, 0xe6db99e5, 0x1fa27cf8, 0xc4ac5665,
   0xf4292244, 0x432aff97, 0xab9423a7, 0xfc93a039,
   0x655b59c3, 0x8f0ccc92, 0xffeff47d, 0x85845dd1,
   0x6fa87e4f, 0xfe2ce6e0, 0xa3014314, 0x4e0811a1,
   0xf7537e82, 0xbd3af235, 0x2ad7d2bb, 0xeb86d391]

/-- The 64 MD5 per-round left-rotation amounts. -/
def md5S : List Nat :=
  [7, 12, 17, 22, 7, 12, 17, 22, 7, 12, 17, 22, 7, 12, 17, 22,
   5, 9, 14, 20, 5, 9, 14, 20, 5, 9, 14, 20, 5, 9, 14, 20,
   4, 11, 16, 23, 4, 11, 16, 23, 4, 11, 16, 23, 4, 11, 16, 23,
   6, 10, 15, 21, 6, 10, 15, 21, 6, 10, 15, 21, 6, 10, 15, 21]

/-- The MD5 round nonlinear function for step `i`. -/
def md5F (i b c d : Nat) : Nat :=
  if i < 16 then (b &&& c) ||| ((b ^^^ 0xffffffff) &&& d)
  else if i < 32 then (d &&& b) ||| ((d ^^^ 0xffffffff) &&& c)
  else if i < 48 then b ^^^ c ^^^ d
  else c ^^^ (b ||| (d ^^^ 0xffffffff))

/-- The MD5 message-word index for step `i`. -/
def md5G (i : Nat) : Nat :=
  if i < 16 then i
  else if i < 32 then (5 * i + 1) % 16
  else if i < 48 then (3 * i + 5) % 16
  else (7 * i) % 16

/-- One MD5 step on the state `(a, b, c, d)` with message words `M`. -/
def md5Step (M : List Nat) (st : Nat × Nat × Nat × Nat) (i : Nat) :
    Nat × Nat × Nat × Nat :=
  let a := st.1
  let b := st.2.1
  let c := st.2.2.1
  let d := st.2.2.2
  let f := u32 (md5F i b c d + a + md5K.getD i 0 + M.getD (md5G i) 0)
  (d, u32 (b + rotl f (md5S.getD i 0)), b, c)

/-- Decode message word `j` of a 64-byte block (4 bytes, little-endian). -/
def md5Word (block : List Nat) (j : Nat) : Nat :=
  block.getD (4 * j) 0 + 256 * block.getD (4 * j + 1) 0 +
    65536 * block.getD (4 * j + 2) 0 + 16777216 * block.getD (4 * j + 3) 0

/-- Process one 64-byte block, updating the running MD5 state. -/
def md5Block (st : Nat × Nat × Nat × Nat) (block : List Nat) :
    Nat × Nat × Nat × Nat :=
  let M := (List.range 16).map (md5Word block)
  let r := (List.range 64).foldl (md5Step M) st
  (u32 (st.1 + r.1), u32 (st.2.1 + r.2.1), u32 (st.2.2.1 + r.2.2.1),
   u32 (st.2.2.2 + r.2.2.2))

/-- Render `n` as `k` bytes, little-endian. -/
def leBytes (k n : Nat) : List Nat :=
  (List.range k).map (fun i => n / 2 ^ (8 * i) % 256)

/-- MD5 padding: append `0x80`, zero-pad to 56 mod 64 bytes, then the original
bit length as 8 little-endian bytes. -/
def md5pad (msg : List Nat) : List Nat :=
  msg ++ [0x80] ++ List.replicate ((120 - (msg.length + 1) % 64) % 64) 0 ++
    leBytes 8 (8 * msg.length % 2 ^ 64)

/-- Split a byte list into 64-byte chunks (structural fuel recursion; the fuel
`l.length` always suffices since each step drops at least one element). -/
def chunks64Go : Nat → List Nat → List (List Nat)
  | _, [] => []
  | 0, _ :: _ => []
  | fuel + 1, x :: xs => (x :: xs).take 64 :: chunks64Go fuel ((x :: xs).drop 64)

/-- Split a byte list into 64-byte chunks. -/
def chunks64 (l : List Nat) : List (List Nat) := chunks64Go l.length l

/-- The 16-byte MD5 digest of a byte list. -/
def md5digest (msg : List Nat) : List Nat :=
  let r := (chunks64 (md5pad msg)).foldl md5Block
    (0x67452301, 0xefcdab89, 0x98badcfe, 0x10325476)
  leBytes 4 r.1 ++ leBytes 4 r.2.1 ++ leBytes 4 r.2.2.1 ++ leBytes 4 r.2.2.2

/-- Lowercase hex rendering of one hex digit (`0`-`9` then `a`-`f`). -/
def hexDigit (n : Nat) : Char := Nat.digitChar n

/-- Lowercase hex rendering of a byte list, two digits per byte. -/
def bytesToHex (bs : List Nat) : String :=
  String.mk (bs.foldr (fun b acc => hexDigit (b / 16) :: hexDigit (b % 16) :: acc) [])

/-- UTF-8 encoding of one character, as bytes. -/
def utf8Char (c : Char) : List Nat :=
  let n := c.toNat
  if n < 0x80 then [n]
  else if n < 0x800 then [0xc0 + n / 64, 0x80 + n % 64]
  else if n < 0x10000 then
    [0xe0 + n / 4096, 0x80 + n / 64 % 64, 0x80 + n % 64]
  else
    [0xf0 + n / 262144, 0x80 + n / 4096 % 64, 0x80 + n / 64 % 64, 0x80 + n % 64]

/-- UTF-8 encoding of a string, as bytes (Python `str.encode()`). -/
def utf8Bytes (s : String) : List Nat :=
  s.data.foldr (fun c acc => utf8Char c ++ acc) []

/-- `hashlib.md5(s.encode()).hexdigest()`. -/
def md5hex (s : String) : String := bytesToHex (md5digest (utf8Bytes s))

/-- RFC 1321 test vector: the empty message. -/
theorem md5hex_empty : md5hex "" = "d41d8cd98f00b204e9800998ecf8427e" := by decide

/-- RFC 1321 test vector: `"abc"`. -/
theorem md5hex_abc : md5hex "abc" = "900150983cd24fb0d6963f7d28e17f72" := by decide

/-! ### Key derivation (`get_cache_key`)

Python renders every positional argument with `str` and every keyword value
inside an f-string; the embedding therefore takes the already-rendered strings
as inputs: `args` is the list of `str(arg)` renderings in call order, and
`kwargs` is the keyword dictionary as an association list (Python dict keys
are distinct; theorems that need this take a `Nodup` hypothesis). -/

/-- Python dict indexing `kwargs[k]` on an association list. -/
def alookup (k : String) : List (String × String) → Option String
  | [] => none
  | (k₁, v) :: rest => if k₁ = k then some v else alookup k rest

/-- `for k in sorted(kwargs.keys()): key_parts.append(f"{k}={kwargs[k]}")`. -/
def kwargsParts (kwargs : List (String × String)) : List String :=
  (List.insertionSort (· ≤ ·) (kwargs.map Prod.fst)).map
    (fun k => k ++ "=" ++ (alookup k kwargs).getD "")

/-- `key_str = "_".join(key_parts)` where `key_parts` is the function name,
then the positional arguments in call order, then the sorted `k=v` renderings
of the keyword arguments. -/
def keyString (func_name : String) (args : List String)
    (kwargs : List (String × String)) : String :=
  String.intercalate "_" (func_name :: (args ++ kwargsParts kwargs))

/-- `get_cache_key`: the MD5 hex digest of the joined key string. -/
def get_cache_key (func_name : String) (args : List String)
    (kwargs : List (String × String)) : String :=
  md5hex (keyString func_name args kwargs)

/-- Sorting a list of strings depends only on its multiset of elements. -/
theorem insertionSort_eq_of_perm {l₁ l₂ : List String} (h : l₁.Perm l₂) :
    List.insertionSort (· ≤ ·) l₁ = List.insertionSort (· ≤ ·) l₂ := by
  refine List.eq_of_perm_of_sorted ?_ (List.sorted_insertionSort _ _)
    (List.sorted_insertionSort _ _)
  exact ((List.perm_insertionSort _ l₁).trans h).trans
    (List.perm_insertionSort _ l₂).symm

/-- Association-list lookup is invariant under permutation when keys are
distinct. -/
theorem alookup_eq_of_perm {l₁ l₂ : List (String × String)} (h : l₁.Perm l₂)
    (nd : (l₁.map Prod.fst).Nodup) (k : String) :
    alookup k l₁ = alookup k l₂ := by
  induction h with
  | nil => rfl
  | cons x h ih =>
    obtain ⟨x₁, x₂⟩ := x
    simp only [alookup]
    by_cases hx : x₁ = k
    · simp [hx]
    · simp only [List.map_cons, List.nodup_cons] at nd
      simp [hx, ih nd.2]
  | swap x y l =>
    obtain ⟨x₁, x₂⟩ := x
    obtain ⟨y₁, y₂⟩ := y
    simp only [List.map_cons, List.nodup_cons, List.mem_cons] at nd
    by_cases hy : y₁ = k <;> by_cases hx : x₁ = k <;>
      simp [alookup, hx, hy]
    exact absurd (Or.inl (hy.trans hx.symm)) nd.1
  | trans h₁ h₂ ih₁ ih₂ =>
    have nd₂ : (_ : List _).Nodup := ((h₁.map Prod.fst).nodup_iff).mp nd
    exact (ih₁ nd).trans (ih₂ nd₂)

/-- The rendered keyword-argument parts depend only on the keyword dictionary,
not on the order in which its pairs are listed. -/
theorem kwargsParts_eq_of_perm {l₁ l₂ : List (String × String)} (h : l₁.Perm l₂)
    (nd : (l₁.map Prod.fst).Nodup) : kwargsParts l₁ = kwargsParts l₂ := by
  unfold kwargsParts
  rw [insertionSort_eq_of_perm (h.map Prod.fst)]
  exact List.map_congr_left fun k _ => by rw [alookup_eq_of_perm h nd k]

/-! ### Cached values and cache entries

A wrapped operation returns either a pandas `DataFrame` or some other
picklable value.  `Frame` models a `DataFrame` by what the spec calls its
lossless content: column names in order, per-column dtypes, and the rows of
rendered cell values.  `DataFrame.to_dict()` produces a plain dict keyed by
column, which drops the dtype information: `PyDict` models that shape. -/

/-- A pandas `DataFrame`: ordered columns, their dtypes, and the rows. -/
structure Frame where
  columns : List String
  dtypes : List String
  rows : List (List String)
deriving DecidableEq

/-- The result of `DataFrame.to_dict()`: a generic column-keyed mapping with
no dtype information. -/
structure PyDict where
  columns : List String
  rows : List (List String)
deriving DecidableEq

/-- `DataFrame.to_dict()`. -/
def Frame.to_dict (f : Frame) : PyDict := ⟨f.columns, f.rows⟩

/-- A Python value held in the cache: a `DataFrame`, the plain dict a
`DataFrame` serializes to, or any other (opaque) picklable value. -/
inductive Value where
  | frame : Frame → Value
  | pydict : PyDict → Value
  | plain : String → Value
deriving DecidableEq

/-- A cache entry dict: `{'result': ..., 'timestamp': ...}`, plus the
optional `'type'` discriminator key that the disk writer adds for
`DataFrame` results. -/
structure CacheEntry where
  result : Value
  timestamp : ℚ
  tag : Option String
deriving DecidableEq

/-- A file in the cache directory: its unpickled content (`none` when the
file is corrupt, truncated, or unreadable, so that `pickle.load` raises) and
its filesystem modification time. -/
structure DiskFile where
  content : Option CacheEntry
  mtime : ℚ
deriving DecidableEq

/-- The in-memory tier `_memory_cache`, keyed by cache key. -/
def Mem : Type := String → Option CacheEntry

/-- The disk tier: the `cache/<key>.pkl` files, keyed by cache key. -/
def Disk : Type := String → Option DiskFile

/-- The tier with no entries. -/
def emptyMem : Mem := fun _ => none

/-- The cache directory with no files. -/
def emptyDisk : Disk := fun _ => none

/-- The freshness test both tiers apply on read:
`time.time() - cache_entry['timestamp'] < expires`. -/
def is_fresh (now ts expires : ℚ) : Bool := now - ts < expires

/-- The serialized form written to disk: a `DataFrame` result is replaced by
`result.to_dict()` and the entry is tagged `'type': 'dataframe'`; any other
result is written unchanged. -/
def serializeEntry (e : CacheEntry) : CacheEntry :=
  match e.result with
  | .frame f => ⟨.pydict f.to_dict, e.timestamp, some "dataframe"⟩
  | _ => e

/-- The outcome of one call to the wrapped function: the returned value or
raised exception, the two tiers afterwards, and how many times the wrapped
`func` was invoked during the call. -/
structure WrapResult where
  result : Except String Value
  mem : Mem
  disk : Disk
  calls : Nat

/-- The cache-miss path of `wrapper`: invoke `func` (an exception
propagates with both tiers untouched), build the new entry, store it in the
memory tier, and attempt the disk write — which serializes `DataFrame`
results specially and, when it fails (`writeOk = false`), is logged and
swallowed, leaving the disk tier unchanged. -/
def fetchAndStore (now : ℚ) (key : String) (op : Except String Value)
    (writeOk : Bool) (mem : Mem) (disk : Disk) : WrapResult :=
  match op with
  | .error e => ⟨.error e, mem, disk, 1⟩
  | .ok v =>
    let entry : CacheEntry := ⟨v, now, none⟩
    ⟨.ok v, fun k => if k = key then some entry else mem k,
     if writeOk then
       fun k => if k = key then some ⟨some (serializeEntry entry), now⟩ else disk k
     else disk, 1⟩

/-- The file-cache branch of `wrapper`: if the key's file exists and loads
and its entry is fresh, repopulate the memory tier with the loaded entry and
return its result; a load failure is logged and treated as a miss; a stale
entry also falls through to the miss path. -/
def diskLookup (expires now : ℚ) (key : String) (op : Except String Value)
    (writeOk : Bool) (mem : Mem) (disk : Disk) : WrapResult :=
  match disk key with
  | some file =>
    match file.content with
    | some e =>
      if is_fresh now e.timestamp expires then
        ⟨.ok e.result, fun k => if k = key then some e else mem k, disk, 0⟩
      else fetchAndStore now key op writeOk mem disk
    | none => fetchAndStore now key op writeOk mem disk
  | none => fetchAndStore now key op writeOk mem disk

/-- One call to the function returned by `cache_result(expires)` for a given
derived `key` at wall-clock time `now`.  `op` is the outcome `func(*args,
**kwargs)` would produce on this call's arguments.  Checks the memory tier
first, then the disk tier, then falls through to `fetchAndStore`. -/
def wrapper (expires now : ℚ) (key : String) (op : Except String Value)
    (writeOk : Bool) (mem : Mem) (disk : Disk) : WrapResult :=
  match mem key with
  | some e =>
    if is_fresh now e.timestamp expires then ⟨.ok e.result, mem, disk, 0⟩
    else diskLookup expires now key op writeOk mem disk
  | none => diskLookup expires now key op writeOk mem disk

/-- `clear_cache()`: empty the memory dict and remove every `*.pkl` file. -/
def clear_cache (_mem : Mem) (_disk : Disk) : Mem × Disk :=
  (fun _ => none, fun _ => none)

/-- `clear_expired_cache(expires)` at time `now`: drop the memory entries
with `now - entry['timestamp'] >= expires`, and remove the cache files with
`now - os.path.getmtime(file) >= expires`; it returns `None`, logging only
the number of memory entries removed. -/
def clear_expired_cache (expires now : ℚ) (mem : Mem) (disk : Disk) :
    Mem × Disk :=
  (fun k => match mem k with
    | some e => if now - e.timestamp ≥ expires then none else some e
    | none => none,
   fun k => match disk k with
    | some f => if now - f.mtime ≥ expires then none else some f
    | none => none)

/-! ### Claims about key derivation -/

/-- C3 counterexample: the argument tuples `["a_b"]` and `["a", "b"]` are
distinct, yet they derive the same cache key with certainty (both render to
the joined string `"f_a_b"` before hashing), so distinct argument tuples do
not yield different keys with overwhelming probability. -/
theorem C3_collision_counterexample :
    (["a_b"] : List String) ≠ ["a", "b"] ∧
    get_cache_key "f" ["a_b"] [] = get_cache_key "f" ["a", "b"] [] := by decide

/-- C3 (amended): the derived key depends only on the underscore-joined
string of rendered arguments — tuples whose joined renderings coincide
collide with certainty — and for tuples whose joined renderings differ the
keys differ with overwhelming probability; in particular
`derive("f",["AAPL"],{}) ≠ derive("f",["MSFT"],{})`. -/
theorem C3_key_distinctness :
    (∀ n₁ a₁ k₁ n₂ a₂ k₂, keyString n₁ a₁ k₁ = keyString n₂ a₂ k₂ →
      get_cache_key n₁ a₁ k₁ = get_cache_key n₂ a₂ k₂) ∧
    get_cache_key "f" ["AAPL"] [] ≠ get_cache_key "f" ["MSFT"] [] :=
  ⟨fun _ _ _ _ _ _ h => congrArg md5hex h, by decide⟩

/-- C3 witness: the amended theorem applied at concrete inputs. -/
theorem C3_key_distinctness_witness :
    get_cache_key "g" ["x"] [] = get_cache_key "g" ["x"] [] ∧
    get_cache_key "f" ["AAPL"] [] ≠ get_cache_key "f" ["MSFT"] [] :=
  ⟨C3_key_distinctness.1 "g" ["x"] [] "g" ["x"] [] rfl, C3_key_distinctness.2⟩

/-- C4: the derived key is invariant under any reordering of the keyword
arguments (whose names, being Python dict keys, are distinct), but is not
invariant under reordering of the positional arguments: permuting
`["a", "b"]` to `["b", "a"]` changes the key. -/
theorem C4_kwargs_order_irrelevant_args_order_relevant :
    (∀ n args (kw₁ kw₂ : List (String × String)), kw₁.Perm kw₂ →
      (kw₁.map Prod.fst).Nodup →
      get_cache_key n args kw₁ = get_cache_key n args kw₂) ∧
    (∃ (n : String) (args args₂ : List String), args₂.Perm args ∧
      get_cache_key n args₂ [] ≠ get_cache_key n args []) := by
  constructor
  · intro n args kw₁ kw₂ h nd
    unfold get_cache_key keyString
    rw [kwargsParts_eq_of_perm h nd]
  · exact ⟨"f", ["a", "b"], ["b", "a"], List.Perm.swap "a" "b" [], by decide⟩

/-- C4 witness: swapping two keyword arguments leaves the key unchanged. -/
theorem C4_kwargs_order_irrelevant_witness :
    get_cache_key "f" ["x"] [("a", "1"), ("b", "2")] =
      get_cache_key "f" ["x"] [("b", "2"), ("a", "1")] :=
  C4_kwargs_order_irrelevant_args_order_relevant.1 "f" ["x"]
    [("a", "1"), ("b", "2")] [("b", "2"), ("a", "1")]
    (List.Perm.swap ("b", "2") ("a", "1") []) (by decide)

/-- C10: a call with the single positional argument rendering `"k=v"` and a
call with the keyword argument `k=v` derive the same cache key, so the two
logically different calls share one cache entry. -/
theorem C10_positional_kwarg_confusion :
    ∀ n k v, get_cache_key n [k ++ "=" ++ v] [] = get_cache_key n [] [(k, v)] := by
  intro n k v
  unfold get_cache_key keyString kwargsParts
  simp [List.insertionSort, List.orderedInsert, alookup]

/-! ### Freshness arithmetic -/

/-- The code's freshness test `now - created_at < ttl` holds exactly for
read times strictly before `created_at + ttl`. -/
theorem is_fresh_true_iff (now ts expires : ℚ) :
    is_fresh now ts expires = true ↔ now < ts + expires := by
  simp [is_fresh, sub_lt_iff_lt_add']

/-- The code's freshness test fails exactly for read times at or after
`created_at + ttl`. -/
theorem is_fresh_false_iff (now ts expires : ℚ) :
    is_fresh now ts expires = false ↔ ts + expires ≤ now := by
  simp [is_fresh, sub_lt_iff_lt_add', decide_eq_false_iff_not, not_lt]

/-! ### Claims about the cached-call wrapper -/

/-- A one-column, one-row `DataFrame` used as concrete input. -/
def sampleFrame : Frame := ⟨["close"], ["float64"], [["123.45"]]⟩

/-- C1: the disk entry for a `DataFrame` result carries the discriminator
tag `'type': 'dataframe'`, yet the disk-hit read path returns the stored
`to_dict()` mapping as-is — the value read back is the generic mapping, not
a table equal to the original, so the round trip fails. -/
theorem C1_disk_readback_not_reconstructed :
    (wrapper 3600 0 "K" (.ok (.frame sampleFrame)) true emptyMem emptyDisk).disk "K"
        = some ⟨some ⟨.pydict ⟨["close"], [["123.45"]]⟩, 0, some "dataframe"⟩, 0⟩ ∧
    (wrapper 3600 1 "K" (.ok (.frame sampleFrame)) true emptyMem
        (wrapper 3600 0 "K" (.ok (.frame sampleFrame)) true emptyMem emptyDisk).disk).calls
        = 0 ∧
    (wrapper 3600 1 "K" (.ok (.frame sampleFrame)) true emptyMem
        (wrapper 3600 0 "K" (.ok (.frame sampleFrame)) true emptyMem emptyDisk).disk).result
        = .ok (.pydict ⟨["close"], [["123.45"]]⟩) ∧
    (wrapper 3600 1 "K" (.ok (.frame sampleFrame)) true emptyMem
        (wrapper 3600 0 "K" (.ok (.frame sampleFrame)) true emptyMem emptyDisk).disk).result
        ≠ .ok (.frame sampleFrame) := by
  refine ⟨?_, ?_, ?_, ?_⟩ <;>
    norm_num [wrapper, diskLookup, fetchAndStore, is_fresh, serializeEntry,
      Frame.to_dict, sampleFrame, emptyMem, emptyDisk]
  exact fun h => Value.noConfusion h

/-- C2: a fresh memory entry is returned without invoking the wrapped
function; otherwise a fresh, loadable disk entry is returned after
repopulating the memory tier, again without invoking it; and a cold call
followed by a second call within the TTL window invokes the wrapped
function exactly once in total. -/
theorem C2_hit_semantics :
    (∀ (S t : ℚ) key op w (mem : Mem) (disk : Disk) e,
      mem key = some e → is_fresh t e.timestamp S = true →
      wrapper S t key op w mem disk = ⟨.ok e.result, mem, disk, 0⟩) ∧
    (∀ (S t : ℚ) key op w (mem : Mem) (disk : Disk) f e,
      (∀ e₀, mem key = some e₀ → is_fresh t e₀.timestamp S = false) →
      disk key = some f → f.content = some e →
      is_fresh t e.timestamp S = true →
      wrapper S t key op w mem disk =
        ⟨.ok e.result, fun k => if k = key then some e else mem k, disk, 0⟩) ∧
    (∀ (S t₀ t₁ : ℚ) key v w₀ w₁ (mem : Mem) (disk : Disk),
      mem key = none → disk key = none → is_fresh t₁ t₀ S = true →
      (wrapper S t₀ key (.ok v) w₀ mem disk).calls +
        (wrapper S t₁ key (.ok v) w₁ (wrapper S t₀ key (.ok v) w₀ mem disk).mem
          (wrapper S t₀ key (.ok v) w₀ mem disk).disk).calls = 1) := by
  refine ⟨fun S t key op w mem disk e hm hf => ?_,
    fun S t key op w mem disk f e hstale hd hc hf => ?_,
    fun S t₀ t₁ key v w₀ w₁ mem disk hm hd hf => ?_⟩
  · simp [wrapper, hm, hf]
  · rcases hcase : mem key with _ | e₀
    · simp [wrapper, hcase, diskLookup, hd, hc, hf]
    · simp [wrapper, hcase, hstale e₀ hcase, diskLookup, hd, hc, hf]
  · simp [wrapper, diskLookup, fetchAndStore, hm, hd, hf]

/-- C2 witness: the three conjuncts applied at concrete inputs — a fresh
memory hit, a fresh disk hit with stale-free memory, and a cold call
followed by a call five time units later within a TTL of ten. -/
theorem C2_hit_semantics_witness :
    (wrapper 10 5 "K" (.ok (.plain "w")) true
        (fun k => if k = "K" then some ⟨.plain "v", 0, none⟩ else none) emptyDisk
      = ⟨.ok (.plain "v"),
          fun k => if k = "K" then some ⟨.plain "v", 0, none⟩ else none,
          emptyDisk, 0⟩) ∧
    (wrapper 10 5 "K" (.ok (.plain "w")) true emptyMem
        (fun k => if k = "K" then some ⟨some ⟨.plain "v", 0, none⟩, 0⟩ else none)
      = ⟨.ok (.plain "v"),
          fun k => if k = "K" then some ⟨.plain "v", 0, none⟩ else emptyMem k,
          fun k => if k = "K" then some ⟨some ⟨.plain "v", 0, none⟩, 0⟩ else none,
          0⟩) ∧
    (wrapper 10 0 "K" (.ok (.plain "v")) true emptyMem emptyDisk).calls +
      (wrapper 10 5 "K" (.ok (.plain "v")) true
        (wrapper 10 0 "K" (.ok (.plain "v")) true emptyMem emptyDisk).mem
        (wrapper 10 0 "K" (.ok (.plain "v")) true emptyMem emptyDisk).disk).calls = 1 :=
  ⟨C2_hit_semantics.1 10 5 "K" (.ok (.plain "w")) true _ emptyDisk
      ⟨.plain "v", 0, none⟩ rfl (by norm_num [is_fresh]),
   C2_hit_semantics.2.1 10 5 "K" (.ok (.plain "w")) true emptyMem _
      ⟨some ⟨.plain "v", 0, none⟩, 0⟩ ⟨.plain "v", 0, none⟩
      (fun e₀ h => by simp [emptyMem] at h) rfl rfl (by norm_num [is_fresh]),
   C2_hit_semantics.2.2 10 0 5 "K" (.plain "v") true true emptyMem emptyDisk
      rfl rfl (by norm_num [is_fresh])⟩

/-- C5: with entry creation time `T` and TTL `S`, a read at any time
strictly before `T + S` is a hit (fresh) and a read at any time at or after
`T + S` falls through to invoke the wrapped function (stale), in the memory
tier and in the disk tier alike. -/
theorem C5_freshness_boundary :
    (∀ (S t : ℚ) key op w (mem : Mem) (disk : Disk) e,
      mem key = some e → t < e.timestamp + S →
      wrapper S t key op w mem disk = ⟨.ok e.result, mem, disk, 0⟩) ∧
    (∀ (S t : ℚ) key op w (mem : Mem) (disk : Disk) e,
      mem key = some e → e.timestamp + S ≤ t → disk key = none →
      (wrapper S t key op w mem disk).calls = 1) ∧
    (∀ (S t : ℚ) key op w (disk : Disk) f e,
      disk key = some f → f.content = some e → t < e.timestamp + S →
      (wrapper S t key op w emptyMem disk).calls = 0 ∧
      (wrapper S t key op w emptyMem disk).result = .ok e.result) ∧
    (∀ (S t : ℚ) key op w (disk : Disk) f e,
      disk key = some f → f.content = some e → e.timestamp + S ≤ t →
      (wrapper S t key op w emptyMem disk).calls = 1) := by
  refine ⟨fun S t key op w mem disk e hm ht => ?_,
    fun S t key op w mem disk e hm ht hd => ?_,
    fun S t key op w disk f e hd hc ht => ?_,
    fun S t key op w disk f e hd hc ht => ?_⟩
  · simp [wrapper, hm, (is_fresh_true_iff t e.timestamp S).mpr ht]
  · rcases op with msg | v <;>
      simp [wrapper, hm, (is_fresh_false_iff t e.timestamp S).mpr ht,
        diskLookup, hd, fetchAndStore]
  · constructor <;>
      simp [wrapper, emptyMem, diskLookup, hd, hc,
        (is_fresh_true_iff t e.timestamp S).mpr ht]
  · rcases op with msg | v <;>
      simp [wrapper, emptyMem, diskLookup, hd, hc, fetchAndStore,
        (is_fresh_false_iff t e.timestamp S).mpr ht]

/-- C5 witness: the four conjuncts at TTL 10 and creation time 0 — memory
reads at times 9 and 10, and disk reads at times 9 and 10. -/
theorem C5_freshness_boundary_witness :
    (wrapper 10 9 "K" (.ok (.plain "w")) true
        (fun k => if k = "K" then some ⟨.plain "v", 0, none⟩ else none) emptyDisk
      = ⟨.ok (.plain "v"),
          fun k => if k = "K" then some ⟨.plain "v", 0, none⟩ else none,
          emptyDisk, 0⟩) ∧
    (wrapper 10 10 "K" (.ok (.plain "w")) true
        (fun k => if k = "K" then some ⟨.plain "v", 0, none⟩ else none)
        emptyDisk).calls = 1 ∧
    (wrapper 10 9 "K" (.ok (.plain "w")) true emptyMem
        (fun k => if k = "K" then some ⟨some ⟨.plain "v", 0, none⟩, 0⟩ else none)).calls
      = 0 ∧
    (wrapper 10 10 "K" (.ok (.plain "w")) true emptyMem
        (fun k => if k = "K" then some ⟨some ⟨.plain "v", 0, none⟩, 0⟩ else none)).calls
      = 1 :=
  ⟨C5_freshness_boundary.1 10 9 "K" (.ok (.plain "w")) true _ emptyDisk
      ⟨.plain "v", 0, none⟩ rfl (by norm_num),
   C5_freshness_boundary.2.1 10 10 "K" (.ok (.plain "w")) true _ emptyDisk
      ⟨.plain "v", 0, none⟩ rfl (by norm_num) rfl,
   (C5_freshness_boundary.2.2.1 10 9 "K" (.ok (.plain "w")) true _
      ⟨some ⟨.plain "v", 0, none⟩, 0⟩ ⟨.plain "v", 0, none⟩
      rfl rfl (by norm_num)).1,
   C5_freshness_boundary.2.2.2 10 10 "K" (.ok (.plain "w")) true _
      ⟨some ⟨.plain "v", 0, none⟩, 0⟩ ⟨.plain "v", 0, none⟩
      rfl rfl (by norm_num)⟩

/-- C6: when both tiers miss (absent, stale, or unreadable) and the wrapped
function raises, the wrapper raises the same error and leaves both tiers
exactly as they were. -/
theorem C6_failure_propagates_tiers_unchanged :
    ∀ (S t : ℚ) key msg w (mem : Mem) (disk : Disk),
      (∀ e, mem key = some e → is_fresh t e.timestamp S = false) →
      (∀ f e, disk key = some f → f.content = some e →
        is_fresh t e.timestamp S = false) →
      wrapper S t key (.error msg) w mem disk = ⟨.error msg, mem, disk, 1⟩ := by
  intro S t key msg w mem disk hmem hdisk
  have hdiskStep : diskLookup S t key (.error msg) w mem disk
      = ⟨.error msg, mem, disk, 1⟩ := by
    rcases hd : disk key with _ | f
    · simp [diskLookup, hd, fetchAndStore]
    · rcases hc : f.content with _ | e
      · simp [diskLookup, hd, hc, fetchAndStore]
      · simp [diskLookup, hd, hc, hdisk f e hd hc, fetchAndStore]
  rcases hm : mem key with _ | e
  · simpa [wrapper, hm] using hdiskStep
  · simpa [wrapper, hm, hmem e hm] using hdiskStep

/-- C6 witness: the theorem applied to empty tiers and a raising operation. -/
theorem C6_failure_propagates_witness :
    wrapper 10 0 "K" (.error "boom") true emptyMem emptyDisk
      = ⟨.error "boom", emptyMem, emptyDisk, 1⟩ :=
  C6_failure_propagates_tiers_unchanged 10 0 "K" "boom" true emptyMem emptyDisk
    (fun e h => by simp [emptyMem] at h)
    (fun f e h _ => by simp [emptyDisk] at h)

/-- C7: a corrupt (unloadable) disk file is treated as a miss — the wrapped
function is invoked, its result is returned, and the new correct entry
overwrites the corrupt file; and when the disk write after a successful
fetch fails, the failure is swallowed: the fetched result is still
returned and the disk tier is simply left unchanged. -/
theorem C7_io_failures_never_propagate :
    (∀ (S t : ℚ) key v (mem : Mem) (disk : Disk) (m : ℚ),
      (∀ e, mem key = some e → is_fresh t e.timestamp S = false) →
      disk key = some ⟨none, m⟩ →
      wrapper S t key (.ok v) true mem disk =
        ⟨.ok v, fun k => if k = key then some ⟨v, t, none⟩ else mem k,
         fun k => if k = key then some ⟨some (serializeEntry ⟨v, t, none⟩), t⟩
           else disk k, 1⟩) ∧
    (∀ (S t : ℚ) key v (mem : Mem) (disk : Disk),
      (∀ e, mem key = some e → is_fresh t e.timestamp S = false) →
      (∀ f e, disk key = some f → f.content = some e →
        is_fresh t e.timestamp S = false) →
      (wrapper S t key (.ok v) false mem disk).result = .ok v ∧
      (wrapper S t key (.ok v) false mem disk).disk = disk ∧
      (wrapper S t key (.ok v) false mem disk).calls = 1) := by
  constructor
  · intro S t key v mem disk m hmem hd
    rcases hm : mem key with _ | e
    · simp [wrapper, hm, diskLookup, hd, fetchAndStore]
    · simp [wrapper, hm, hmem e hm, diskLookup, hd, fetchAndStore]
  · intro S t key v mem disk hmem hdisk
    have hdiskStep : diskLookup S t key (.ok v) false mem disk
        = ⟨.ok v, fun k => if k = key then some ⟨v, t, none⟩ else mem k,
           disk, 1⟩ := by
      rcases hd : disk key with _ | f
      · simp [diskLookup, hd, fetchAndStore]
      · rcases hc : f.content with _ | e
        · simp [diskLookup, hd, hc, fetchAndStore]
        · simp [diskLookup, hd, hc, hdisk f e hd hc, fetchAndStore]
    rcases hm : mem key with _ | e
    · simp [wrapper, hm, hdiskStep]
    · simp [wrapper, hm, hmem e hm, hdiskStep]

/-- C7 witness: a corrupt file for the key is overwritten by the freshly
fetched entry, and with a failing disk write the fetched result is still
returned over unchanged disk state. -/
theorem C7_io_failures_witness :
    (wrapper 10 1 "K" (.ok (.plain "v")) true emptyMem
        (fun k => if k = "K" then some ⟨none, 0⟩ else none)
      = ⟨.ok (.plain "v"),
          fun k => if k = "K" then some ⟨.plain "v", 1, none⟩ else emptyMem k,
          fun k => if k = "K" then some ⟨some (serializeEntry ⟨.plain "v", 1, none⟩), 1⟩
            else (fun k₂ => if k₂ = "K" then some ⟨none, 0⟩ else none) k,
          1⟩) ∧
    ((wrapper 10 1 "K" (.ok (.plain "v")) false emptyMem emptyDisk).result
        = .ok (.plain "v") ∧
      (wrapper 10 1 "K" (.ok (.plain "v")) false emptyMem emptyDisk).disk = emptyDisk ∧
      (wrapper 10 1 "K" (.ok (.plain "v")) false emptyMem emptyDisk).calls = 1) :=
  ⟨C7_io_failures_never_propagate.1 10 1 "K" (.plain "v") emptyMem _ 0
      (fun e h => by simp [emptyMem] at h) rfl,
   C7_io_failures_never_propagate.2 10 1 "K" (.plain "v") emptyMem emptyDisk
      (fun e h => by simp [emptyMem] at h)
      (fun f e h _ => by simp [emptyDisk] at h)⟩

/-! ### Claims about the maintenance operations -/

/-- A disk file whose entry was created at time 0 but whose filesystem
modification time is 100. -/
def staleByCreation : DiskFile := ⟨some ⟨.plain "v", 0, none⟩, 100⟩

/-- C8 counterexample: at time 60 with TTL 50, the disk entry created at
time 0 fails the freshness predicate (`60 - 0 ≥ 50`), yet the sweep keeps
its file because it tests the file's modification time (100) instead of the
entry's creation time — so the sweep does not remove exactly the entries
failing freshness. -/
theorem C8_sweep_mtime_counterexample :
    staleByCreation.content = some ⟨.plain "v", 0, none⟩ ∧
    ((60 : ℚ) - 0 ≥ 50) ∧
    (clear_expired_cache 50 60 emptyMem
        (fun k => if k = "K" then some staleByCreation else none)).2 "K"
      = some staleByCreation := by
  refine ⟨rfl, by norm_num, ?_⟩
  norm_num [clear_expired_cache, staleByCreation]

/-- C8 (amended): the sweep removes from the memory tier exactly the entries
with `now - created_at ≥ ttl`, and from the disk tier exactly the files with
`now - mtime ≥ ttl` (the file's modification time, not the stored entry's
creation time); every other entry and file is left in place.  The Python
function returns `None`, logging only the memory-tier removal count. -/
theorem C8_sweep_characterization :
    ∀ (S t : ℚ) (mem : Mem) (disk : Disk) k,
      (∀ e, mem k = some e →
        ((clear_expired_cache S t mem disk).1 k = some e ↔ t - e.timestamp < S)) ∧
      (mem k = none → (clear_expired_cache S t mem disk).1 k = none) ∧
      (∀ f, disk k = some f →
        ((clear_expired_cache S t mem disk).2 k = some f ↔ t - f.mtime < S)) ∧
      (disk k = none → (clear_expired_cache S t mem disk).2 k = none) := by
  intro S t mem disk k
  refine ⟨fun e he => ?_, fun he => ?_, fun f hf => ?_, fun hf => ?_⟩
  · simp only [clear_expired_cache, he]
    split_ifs with h
    · simp [not_lt.mpr h]
    · simp [lt_of_not_ge h]
  · simp [clear_expired_cache, he]
  · simp only [clear_expired_cache, hf]
    split_ifs with h
    · simp [not_lt.mpr h]
    · simp [lt_of_not_ge h]
  · simp [clear_expired_cache, hf]

/-- C8 witness: the memory-tier characterization applied to an entry created
at time 0, swept at time 60 with TTL 50. -/
theorem C8_sweep_characterization_witness :
    (clear_expired_cache 50 60
        (fun k => if k = "K" then some ⟨.plain "v", 0, none⟩ else none)
        emptyDisk).1 "K" = some ⟨.plain "v", 0, none⟩ ↔ (60 : ℚ) - 0 < 50 :=
  (C8_sweep_characterization 50 60
      (fun k => if k = "K" then some ⟨.plain "v", 0, none⟩ else none)
      emptyDisk "K").1 ⟨.plain "v", 0, none⟩ rfl

/-- C9: the bulk clear empties both tiers unconditionally, and any
subsequent wrapped call — whatever its TTL, time, or key — misses both
tiers, invokes the wrapped function exactly once, and surfaces its
outcome. -/
theorem C9_clear_all_forces_refetch :
    ∀ (mem : Mem) (disk : Disk),
      (∀ k, (clear_cache mem disk).1 k = none ∧ (clear_cache mem disk).2 k = none) ∧
      (∀ (S t : ℚ) key op w,
        (wrapper S t key op w (clear_cache mem disk).1 (clear_cache mem disk).2).calls
          = 1 ∧
        (wrapper S t key op w (clear_cache mem disk).1 (clear_cache mem disk).2).result
          = op) := by
  intro mem disk
  refine ⟨fun k => ⟨rfl, rfl⟩, fun S t key op w => ?_⟩
  rcases op with msg | v <;>
    simp [clear_cache, wrapper, diskLookup, fetchAndStore]

end StockCache
